import Mathlib

/-!
Verification development for the StreamNova media-catalog front-end.

The repository is a React single-page application; this file gives a shallow
embedding of the state logic the specification talks about:

* the banner carousel of `src/components/Banner.tsx` (index stepping,
  slide-direction derivation, the transition guard and `goToSlide`);
* the debounced search of the navigation bar (`src/components/MovieRow.tsx`,
  the `useEffect` keyed on `searchQuery`);
* the startup fetch join and error rendering of `src/App.tsx`;
* the details modal of `src/components/MovieModal.tsx` (TV classification,
  embed-URL construction, season/episode selectors);
* the item-click hydration handlers of `src/App.tsx` and the navigation bar;
* the category-row rendering of `src/components/MovieRow.tsx`.

React `useState` cells become fields of explicit state structures, and each
handler or effect becomes a pure function on those structures.  Timers are
modelled by their observable consequences: a two-phase carousel transition is
embedded as the completed transition (the direction `useEffect` runs while the
transition flag is up, so the direction stored in the final state is the one
that effect computes), and the 500 ms search debounce is embedded both as a
one-step timer state machine and as a trace semantics over timestamped
keystrokes.  JavaScript truthiness on optional fields is made explicit through
the `js*` helpers below.
-/

namespace StreamNova

/-! ## JavaScript value helpers

Optional JS values are `Option`; `undefined`/`null` are `none`.  Truthiness of
a string is "present and non-empty", of a number "present and non-zero". -/

/-- Truthiness of an optional string: `undefined`, `null` and `""` are falsy. -/
def jsStrTruthy : Option String → Bool
  | none => false
  | some s => !s.isEmpty

/-- Truthiness of an optional number: `undefined`, `null` and `0` are falsy. -/
def jsNatTruthy : Option Nat → Bool
  | none => false
  | some n => n != 0

/-- JS `a || b` on optional strings: the first operand when truthy, else the
second. -/
def jsOrStr (a b : Option String) : Option String :=
  if jsStrTruthy a then a else b

/-- JS `a || d` on an optional number against a number default (used for
`season.episode_count || 10` and `episodesPerSeason[s] || 10`). -/
def jsOrNatD : Option Nat → Nat → Nat
  | none, d => d
  | some n, d => if n = 0 then d else n

/-- JS `String.prototype.trim()`: strip leading and trailing whitespace. -/
def jsTrim (s : String) : String :=
  String.mk (((s.data.dropWhile Char.isWhitespace).reverse.dropWhile
    Char.isWhitespace).reverse)

/-! ## Carousel controller (`src/components/Banner.tsx`)

State cells: `currentIndex`, `prevIndex`, `isTransitioning`,
`slideDirection` (`'right'` = forward, `'left'` = backward). -/

/-- `'left' | 'right'` of the `slideDirection` state cell; `right` is the
forward direction. -/
inductive SlideDirection
  | left
  | right
deriving DecidableEq, Repr

structure CarouselState where
  currentIndex : Nat
  prevIndex : Nat
  isTransitioning : Bool
  slideDirection : SlideDirection
deriving DecidableEq, Repr

/-- The direction-determination `useEffect` (Banner.tsx lines 26-38), which
runs while `isTransitioning` holds: wraparound last-to-first is `right`,
first-to-last is `left`, otherwise compare the indices. -/
def computeSlideDirection (len prevIdx curIdx : Nat) : SlideDirection :=
  if prevIdx = len - 1 ∧ curIdx = 0 then .right
  else if prevIdx = 0 ∧ curIdx = len - 1 then .left
  else if curIdx > prevIdx then .right else .left

/-- `nextSlide` (Banner.tsx lines 40-56) run to completion: guarded by
`isTransitioning`; records the previous index, steps the current index with
wraparound, and stores the direction the direction effect computes during the
transition.  The two nested timeouts are collapsed to the completed
transition, ending with the flag cleared. -/
def nextSlide (len : Nat) (s : CarouselState) : CarouselState :=
  if s.isTransitioning then s
  else
    let prev := s.currentIndex
    let cur := if prev = len - 1 then 0 else prev + 1
    { currentIndex := cur, prevIndex := prev, isTransitioning := false,
      slideDirection := computeSlideDirection len prev cur }

/-- `prevSlide` (Banner.tsx lines 58-74) run to completion, symmetric to
`nextSlide` with wraparound at index 0. -/
def prevSlide (len : Nat) (s : CarouselState) : CarouselState :=
  if s.isTransitioning then s
  else
    let prev := s.currentIndex
    let cur := if prev = 0 then len - 1 else prev - 1
    { currentIndex := cur, prevIndex := prev, isTransitioning := false,
      slideDirection := computeSlideDirection len prev cur }

/-- `goToSlide` (Banner.tsx lines 77-91) run to completion: a no-op when a
transition is in progress or the target is the current index, else sets the
current index directly. -/
def goToSlide (len idx : Nat) (s : CarouselState) : CarouselState :=
  if s.isTransitioning = true ∨ idx = s.currentIndex then s
  else
    { currentIndex := idx, prevIndex := s.currentIndex, isTransitioning := false,
      slideDirection := computeSlideDirection len s.currentIndex idx }

/-! ## Search debounce (`src/components/MovieRow.tsx`, Navbar, lines 304-323)

The `useEffect` keyed on `searchQuery` schedules one 500 ms timer per
keystroke and its cleanup cancels the pending timer.  The timer callback
checks `searchQuery.trim().length > 2` at fire time: above the threshold it
calls `searchTMDB`, otherwise it clears the result list. -/

/-- The navigation bar's search state: the result list (item identifiers) and
the pending debounce timer together with the query value it captured. -/
structure SearchState where
  searchResults : List Nat
  pending : Option String
deriving DecidableEq, Repr

/-- The synchronous part of one keystroke: the effect cleanup cancels any
pending timer and a fresh 500 ms timer capturing the new query is scheduled.
Nothing else changes at the keystroke itself. -/
def onKeystroke (q : String) (s : SearchState) : SearchState :=
  { searchResults := s.searchResults, pending := some q }

/-- The timer callback firing (reached only when no later keystroke cancelled
it).  `search` stands for the resolved `searchTMDB` results.  Returns the new
state and the list of network calls issued (the queries sent). -/
def fireTimer (search : String → List Nat) (s : SearchState) :
    SearchState × List String :=
  match s.pending with
  | none => (s, [])
  | some q =>
    if 2 < (jsTrim q).length then
      ({ searchResults := search q, pending := none }, [q])
    else
      ({ searchResults := [], pending := none }, [])

/-- Trace semantics of the same effect over timestamped keystrokes
`(time, query)`, times increasing, the trace ending with at least 500 ms of
quiescence: a keystroke's timer fires iff the next keystroke (if any) comes
no sooner than 500 ms after it. -/
def firedQueries : List (Nat × String) → List String
  | [] => []
  | [(_, q)] => [q]
  | (t₁, q₁) :: (t₂, q₂) :: rest =>
    (if t₁ + 500 ≤ t₂ then [q₁] else []) ++ firedQueries ((t₂, q₂) :: rest)

/-- The search network calls a keystroke trace issues: the fired timers whose
captured query passes the trimmed-length threshold. -/
def networkCalls (trace : List (Nat × String)) : List String :=
  (firedQueries trace).filter (fun q => 2 < (jsTrim q).length)

/-- Every keystroke after the first arrives within 500 ms of its
predecessor. -/
def rapidB : List (Nat × String) → Bool
  | (t₁, _) :: (t₂, q₂) :: rest =>
    decide (t₂ < t₁ + 500) && rapidB ((t₂, q₂) :: rest)
  | _ => true

/-- The final typed query of a keystroke trace (`""` for the empty trace). -/
def lastQuery : List (Nat × String) → String
  | [] => ""
  | [(_, q)] => q
  | _ :: rest => lastQuery rest

/-! ## Root composition (`src/App.tsx`)

The startup effect awaits `Promise.all` of the eight category fetches and on
any rejection the `catch` arm records the error message; the render function
branches on `isLoading`, then on `error`, then shows the content.  A fetch
outcome is `Except String (List Nat)`: a rejection's message, or a resolved
list of item identifiers. -/

/-- Whether a fetch outcome is a rejection. -/
def isErr {α : Type} : Except String α → Bool
  | .error _ => true
  | .ok _ => false

/-- `Promise.all`: resolves with all values when every input resolves,
rejects as soon as one input rejects. -/
def promiseAll {α : Type} : List (Except String α) → Except String (List α)
  | [] => .ok []
  | .error e :: _ => .error e
  | .ok a :: xs =>
    match promiseAll xs with
    | .ok rest => .ok (a :: rest)
    | .error e => .error e

/-- The `App` component's state: the eight category lists (as one list of
eight, in the order they are destructured), the error message and the
loading flag. -/
structure AppState where
  categories : List (List Nat)
  error : Option String
  isLoading : Bool
deriving DecidableEq, Repr

/-- `useState` initial values: eight empty lists, no error, loading. -/
def initialAppState : AppState :=
  { categories := List.replicate 8 [], error := none, isLoading := true }

/-- What `App`'s top-level render shows: the loading screen, the error panel
(message and whether a retry button is offered), or the composed content. -/
inductive Screen
  | loading
  | errorPanel (message : String) (hasRetry : Bool)
  | content (rows : List (List Nat))
deriving DecidableEq, Repr

/-- The error message the `catch` arm stores (App.tsx line 62). -/
def fetchErrorMessage : String := "Failed to load content. Please try again later."

/-- `fetchData` (App.tsx lines 22-69) run to completion on the given fetch
outcomes: on a resolved `Promise.all` the eight setters store the lists and
`error` stays cleared; on a rejection the lists are left as they were and the
error message is stored; `finally` clears `isLoading`. -/
def fetchData (results : List (Except String (List Nat))) (s : AppState) :
    AppState :=
  match promiseAll results with
  | .ok lists => { categories := lists, error := none, isLoading := false }
  | .error _ =>
    { categories := s.categories, error := some fetchErrorMessage,
      isLoading := false }

/-- `App`'s render branches (App.tsx lines 118-140 and the main return):
loading screen while `isLoading`, else the error panel (with its retry
button) when `error` is set, else the content rows. -/
def renderApp (s : AppState) : Screen :=
  if s.isLoading then .loading
  else
    match s.error with
    | some e => .errorPanel e true
    | none => .content s.categories

/-! ## Fetched item objects (`src/components/MovieModal.tsx`)

The modal receives an arbitrary hydrated API object; the fields it reads are
embedded as optional fields (`none` = the JS property is `undefined`). -/

/-- The `external_ids` sub-object appended to a details response. -/
structure ExternalIds where
  imdb_id : Option String
deriving DecidableEq, Repr

/-- One entry of the `seasons` list of a TV details response. -/
structure SeasonEntry where
  season_number : Nat
  episode_count : Option Nat
deriving DecidableEq, Repr

/-- A fetched item object, restricted to the fields the modal reads. -/
structure Item where
  id : Option Nat
  title : Option String
  name : Option String
  media_type : Option String
  first_air_date : Option String
  number_of_seasons : Option Nat
  seasons : Option (List SeasonEntry)
  imdb_id : Option String
  external_ids : Option ExternalIds
deriving DecidableEq, Repr

/-- The TV-show classification of the modal's `useEffect` (MovieModal.tsx
lines 26-29): `movie.number_of_seasons !== undefined ||
movie.first_air_date !== undefined || movie.media_type === 'tv' ||
movie.name !== undefined`.  The `!== undefined` tests are presence tests,
not truthiness. -/
def isTVShow (m : Item) : Bool :=
  m.number_of_seasons.isSome || m.first_air_date.isSome ||
    (m.media_type == some "tv") || m.name.isSome

/-- `movie.external_ids?.imdb_id`: optional chaining through the
`external_ids` sub-object. -/
def externalImdbId (m : Item) : Option String :=
  m.external_ids.bind ExternalIds.imdb_id

/-- `getEmbedUrl` (MovieModal.tsx lines 62-79) together with whether the
fallback `console.warn` fires (the second component).  `isTV`,
`selectedSeason` and `selectedEpisode` are the component-state values in
scope. -/
def getEmbedUrl (isTV : Bool) (selectedSeason selectedEpisode : Nat)
    (movie : Item) : String × Bool :=
  if !jsNatTruthy movie.id then ("", false)
  else if isTV then
    let imdbId := jsOrStr (externalImdbId movie) movie.imdb_id
    if jsStrTruthy imdbId then
      ("https://vidsrc.in/embed/tv?imdb=" ++ imdbId.getD "" ++ "&season=" ++
        toString selectedSeason ++ "&episode=" ++ toString selectedEpisode,
        false)
    else
      ("https://vidsrc.in/embed/tv?tmdb=" ++ toString (movie.id.getD 0) ++
        "&season=" ++ toString selectedSeason ++ "&episode=" ++
        toString selectedEpisode, true)
  else
    ("https://vidsrc.in/embed/movie/" ++ toString (movie.id.getD 0), false)

/-- The modal's state cells (MovieModal.tsx lines 14-19).  The
`episodesPerSeason` JS object is a finite map from season number to episode
count, embedded as a function into `Option Nat` (`none` = key absent). -/
structure ModalState where
  showPlayer : Bool
  isTV : Bool
  selectedSeason : Nat
  selectedEpisode : Nat
  totalSeasons : Nat
  episodesPerSeason : Nat → Option Nat

/-- The `useState` initial values of the modal (the episode map starts as
the empty object `{}`). -/
def initialModalState : ModalState :=
  { showPlayer := false, isTV := false, selectedSeason := 1,
    selectedEpisode := 1, totalSeasons := 1, episodesPerSeason := fun _ => none }

/-- The `seasons.forEach` loop (MovieModal.tsx lines 36-43): entries with
`season_number > 0` are written into the map with value
`episode_count || 10` (a later entry for the same season overwrites an
earlier one, as JS object assignment does); season 0 (specials) is
skipped. -/
def buildEpisodesPerSeason (l : List SeasonEntry) : Nat → Option Nat :=
  l.foldl
    (fun acc s =>
      if 0 < s.season_number then
        fun k =>
          if k = s.season_number then some (jsOrNatD s.episode_count 10)
          else acc k
      else acc)
    (fun _ => none)

/-- The modal's `useEffect` on `[movie]` (MovieModal.tsx lines 21-46): reset
the player, classify the item, and when it is a TV show with a truthy
`number_of_seasons` store that count and build the per-season episode map
from the `seasons` list (an absent list yields the empty map). -/
def loadMovie (movie : Item) (st : ModalState) : ModalState :=
  let tv := isTVShow movie
  let st₁ := { st with showPlayer := false, isTV := tv }
  if tv && jsNatTruthy movie.number_of_seasons then
    { st₁ with totalSeasons := movie.number_of_seasons.getD 0,
               episodesPerSeason :=
                 buildEpisodesPerSeason (movie.seasons.getD []) }
  else st₁

/-- The season `<option>` values rendered (MovieModal.tsx lines 82-89):
`1, 2, ..., totalSeasons`. -/
def seasonOptions (st : ModalState) : List Nat :=
  List.range' 1 st.totalSeasons

/-- The episode `<option>` values rendered (MovieModal.tsx lines 92-100):
`1, ..., episodesPerSeason[selectedSeason] || 10`. -/
def episodeOptions (st : ModalState) : List Nat :=
  List.range' 1 (jsOrNatD (st.episodesPerSeason st.selectedSeason) 10)

/-- The season selector's `onChange` (MovieModal.tsx lines 123-127): store
the new season and reset the selected episode to 1. -/
def changeSeason (n : Nat) (st : ModalState) : ModalState :=
  { st with selectedSeason := n, selectedEpisode := 1 }

/-! ## Item-click hydration

`App.handleMovieClick` (App.tsx lines 71-116) and the navigation bar's
`handleMovieClick` (MovieRow.tsx Navbar section, lines 343-393).  The detail
fetch outcome is an `Except String Nat` carrying the hydrated item's
identifier (0 plays the role of a missing/falsy `id`); a caught rejection is
only logged. -/

/-- `App.handleMovieClick` run to completion on a fetch outcome: it first
clears `selectedMovie`, then on success stores the details when
`movieDetails.id` is truthy (otherwise the thrown error is caught and the
state stays cleared); a rejected fetch is caught and logged, leaving the
state as cleared at entry. -/
def appHandleMovieClick (fetchResult : Except String Nat)
    (selectedMovie : Option Nat) : Option Nat :=
  match fetchResult with
  | .ok d => if d ≠ 0 then some d else none
  | .error _ => none

/-- The navigation bar's state read and written by its `handleMovieClick`. -/
structure NavbarState where
  showSearch : Bool
  searchQuery : String
  searchResults : List Nat
  selectedMovie : Option Nat
deriving DecidableEq, Repr

/-- The navigation bar's `handleMovieClick` run to completion: on a rejected
fetch the `catch` arm only logs, so the state is untouched; on success the
details are stored (the movie arm checks `details && details.id` first) and
the search UI is reset and closed. -/
def navbarHandleMovieClick (mediaType : String)
    (fetchResult : Except String Nat) (s : NavbarState) : NavbarState :=
  match fetchResult with
  | .error _ => s
  | .ok d =>
    if mediaType = "tv" then
      { showSearch := false, searchQuery := "", searchResults := [],
        selectedMovie := some d }
    else
      { showSearch := false, searchQuery := "", searchResults := [],
        selectedMovie := if d ≠ 0 then some d else s.selectedMovie }

/-! ## Category rows (`src/components/MovieRow.tsx`) -/

/-- A list item as the row reads it. -/
structure RowMovie where
  id : Nat
  title : Option String
  name : Option String
  media_type : Option String
  poster_path : Option String
deriving DecidableEq, Repr

/-- The `validMovies` filter predicate: the item has a truthy
`poster_path`. -/
def hasPoster (m : RowMovie) : Bool :=
  jsStrTruthy m.poster_path

/-- `validMovies` (MovieRow.tsx lines 96-98): the input list restricted to
items with a poster path. -/
def validMovies (movies : List RowMovie) : List RowMovie :=
  movies.filter hasPoster

/-- What a `MovieRow` renders: nothing at all (`null`), or a heading plus
the rendered cards (by item identifier; the card list is empty until the
row has become visible). -/
inductive RowRender
  | nothing
  | row (title : String) (cardIds : List Nat)
deriving DecidableEq, Repr

/-- `MovieRow`'s render (MovieRow.tsx lines 83-102 and 178-231): `null` when
the input list is empty or no item survives the poster filter; otherwise the
heading with the cards of `validMovies` once the row is visible. -/
def renderMovieRow (title : String) (movies : List RowMovie)
    (isRowVisible : Bool) : RowRender :=
  if movies.isEmpty then .nothing
  else if (validMovies movies).isEmpty then .nothing
  else .row title (if isRowVisible then (validMovies movies).map RowMovie.id else [])

/-! ## Claim C1 — carousel stepping and slide direction

The claim asserts `advance()` always ends with direction forward and
`retreat()` from 0 always ends with direction backward.  The index parts
hold, but the wraparound special cases of the direction effect misfire on
short banner sets: with two banners, advancing from index 0 matches the
first-to-last test (`prevIndex === 0 && currentIndex === movies.length - 1`)
and comes out backward, and with a single banner, retreating from index 0
matches the last-to-first test and comes out forward. -/

/-- A completed, unsuppressed `nextSlide` written out field by field. -/
lemma nextSlide_eq (len : Nat) (s : CarouselState) (h : s.isTransitioning = false) :
    nextSlide len s =
      { currentIndex := if s.currentIndex = len - 1 then 0 else s.currentIndex + 1,
        prevIndex := s.currentIndex, isTransitioning := false,
        slideDirection := computeSlideDirection len s.currentIndex
          (if s.currentIndex = len - 1 then 0 else s.currentIndex + 1) } := by
  simp [nextSlide, h]

/-- A completed, unsuppressed `prevSlide` written out field by field. -/
lemma prevSlide_eq (len : Nat) (s : CarouselState) (h : s.isTransitioning = false) :
    prevSlide len s =
      { currentIndex := if s.currentIndex = 0 then len - 1 else s.currentIndex - 1,
        prevIndex := s.currentIndex, isTransitioning := false,
        slideDirection := computeSlideDirection len s.currentIndex
          (if s.currentIndex = 0 then len - 1 else s.currentIndex - 1) } := by
  simp [prevSlide, h]

/-- C1 (counterexample): with a banner set of length 2, `advance()` from
index 0 reaches index 1 but with slide direction `left` (backward), and with
a banner set of length 1, `retreat()` from index 0 ends with slide direction
`right` (forward) — both contradict the directions the claim states. -/
theorem C1_direction_counterexample :
    (nextSlide 2 ⟨0, 0, false, SlideDirection.right⟩).currentIndex = 1 ∧
    (nextSlide 2 ⟨0, 0, false, SlideDirection.right⟩).slideDirection =
      SlideDirection.left ∧
    (prevSlide 1 ⟨0, 0, false, SlideDirection.left⟩).slideDirection =
      SlideDirection.right ∧
    SlideDirection.left ≠ SlideDirection.right := by
  decide

/-- C1 (amended): for a non-empty banner set of length `len` and current
index `i < len`, an unsuppressed `advance()` yields index `(i+1) % len`; its
direction is forward except in the length-2 set advancing from index 0,
where the first-to-last wraparound test fires and the direction is backward.
`retreat()` from index 0 yields index `len - 1`; its direction is backward
for `len ≥ 2` but forward for `len = 1`, where the last-to-first wraparound
test fires. -/
theorem C1_carousel_step (len : Nat) (s : CarouselState) (i : Nat)
    (hnt : s.isTransitioning = false) (hcur : s.currentIndex = i)
    (hlen : i < len) :
    (nextSlide len s).currentIndex = (i + 1) % len ∧
    (¬(len = 2 ∧ i = 0) →
      (nextSlide len s).slideDirection = SlideDirection.right) ∧
    (len = 2 ∧ i = 0 →
      (nextSlide len s).slideDirection = SlideDirection.left) ∧
    (i = 0 → (prevSlide len s).currentIndex = len - 1) ∧
    (i = 0 → 2 ≤ len →
      (prevSlide len s).slideDirection = SlideDirection.left) ∧
    (i = 0 → len = 1 →
      (prevSlide len s).slideDirection = SlideDirection.right) := by
  rw [nextSlide_eq len s hnt, prevSlide_eq len s hnt, hcur]
  dsimp only
  refine ⟨?_, ?_, ?_, ?_, ?_, ?_⟩
  · by_cases hi : i = len - 1
    · have h0 : len - 1 + 1 = len := by omega
      simp [hi, h0, Nat.mod_self]
    · have h2 : i + 1 < len := by omega
      simp [hi, Nat.mod_eq_of_lt h2]
  · intro hne
    unfold computeSlideDirection
    by_cases hi : i = len - 1
    · simp [hi]
    · rw [if_neg hi]
      split_ifs with h1 h2 h3 <;> first | rfl | (exfalso; omega)
  · rintro ⟨hlen2, hi⟩
    subst hlen2
    subst hi
    decide
  · intro hi
    subst hi
    simp
  · intro hi h2
    subst hi
    rw [if_pos rfl]
    unfold computeSlideDirection
    split_ifs with h1 h2 h3 <;> first | rfl | (exfalso; omega)
  · intro hi h1
    subst hi
    subst h1
    decide

/-- C1 (witness): in a banner set of length 3, `advance()` from index 0
reaches index 1 going forward and `retreat()` from index 0 reaches index 2
going backward. -/
theorem C1_carousel_step_witness :
    (nextSlide 3 ⟨0, 0, false, SlideDirection.right⟩).currentIndex = 1 ∧
    (nextSlide 3 ⟨0, 0, false, SlideDirection.right⟩).slideDirection =
      SlideDirection.right ∧
    (prevSlide 3 ⟨0, 0, false, SlideDirection.right⟩).currentIndex = 2 ∧
    (prevSlide 3 ⟨0, 0, false, SlideDirection.right⟩).slideDirection =
      SlideDirection.left := by
  have h := C1_carousel_step 3 ⟨0, 0, false, SlideDirection.right⟩ 0 rfl rfl
    (by omega)
  exact ⟨by simpa using h.1, h.2.1 (by omega), h.2.2.2.1 rfl,
    h.2.2.2.2.1 rfl (by omega)⟩

/-! ## Claim C4 — `jumpTo` no-op guard -/

/-- C4: `goToSlide` called while a transition is in progress, or with the
current index as target, returns the state unchanged in every field. -/
theorem C4_goToSlide_noop (len idx : Nat) (s : CarouselState)
    (h : s.isTransitioning = true ∨ idx = s.currentIndex) :
    goToSlide len idx s = s := by
  unfold goToSlide
  exact if_pos h

/-- C4 (witness): jumping to index 1 while a transition is in progress, and
jumping to the current index 2 while idle, both leave the state untouched. -/
theorem C4_goToSlide_noop_witness :
    goToSlide 5 1 ⟨2, 0, true, SlideDirection.right⟩ =
      ⟨2, 0, true, SlideDirection.right⟩ ∧
    goToSlide 5 2 ⟨2, 0, false, SlideDirection.right⟩ =
      ⟨2, 0, false, SlideDirection.right⟩ :=
  ⟨C4_goToSlide_noop 5 1 _ (Or.inl rfl), C4_goToSlide_noop 5 2 _ (Or.inr rfl)⟩

/-! ## Claim C2 — per-keystroke debounce behaviour

The cancel-and-reschedule part of the claim holds, as does "no network call
for a trimmed length of 2 or less".  But the claim's "the result list is
cleared immediately" is wrong: the `setSearchResults([])` for short queries
sits inside the 500 ms `setTimeout` callback, so the clearing happens only
when that timer fires, 500 ms later (and not at all if another keystroke
cancels the timer first). -/

/-- C2 (counterexample): with the result list holding an item, typing the
two-character query "ab" leaves the result list untouched at the keystroke
itself; it becomes empty only when the 500 ms timer fires. -/
theorem C2_clear_not_immediate_counterexample :
    (onKeystroke "ab" ⟨[7], none⟩).searchResults = [7] ∧
    (onKeystroke "ab" ⟨[7], none⟩).searchResults ≠ [] ∧
    (fireTimer (fun _ => []) (onKeystroke "ab" ⟨[7], none⟩)).1.searchResults = [] ∧
    (fireTimer (fun _ => []) (onKeystroke "ab" ⟨[7], none⟩)).2 = [] := by
  decide

/-- C2 (amended): every keystroke cancels the pending timer and schedules a
fresh 500 ms timer capturing the query, changing nothing else at the
keystroke; when that timer fires, a search call carrying the query is issued
exactly when the trimmed length exceeds 2, and otherwise the result list is
cleared at that point — after the delay, not immediately — with no network
call. -/
theorem C2_keystroke_debounce (search : String → List Nat) (s : SearchState)
    (q : String) :
    (onKeystroke q s).pending = some q ∧
    (onKeystroke q s).searchResults = s.searchResults ∧
    (fireTimer search (onKeystroke q s)).2 =
      (if 2 < (jsTrim q).length then [q] else []) ∧
    (fireTimer search (onKeystroke q s)).1.searchResults =
      (if 2 < (jsTrim q).length then search q else []) := by
  refine ⟨rfl, rfl, ?_, ?_⟩ <;>
    · simp only [onKeystroke, fireTimer]
      split_ifs <;> rfl

/-! ## Claim C3 — one call per settled burst

The claim quantifies over every keystroke sequence ending in 500 ms of
quiescence.  That is too strong: a gap of 500 ms or more in the middle of the
sequence lets the earlier timer fire too, so a superseded query does trigger
a call and more than one call is issued.  Restricted to rapid sequences
(every keystroke within 500 ms of its predecessor) the claim holds, with the
call issued exactly when the final trimmed query is over the length
threshold. -/

/-- C3 (amended): for a non-empty keystroke trace whose keystrokes each
arrive within 500 ms of the previous one and that ends with at least 500 ms
of quiescence, the network calls are exactly one call carrying the final
typed query when its trimmed length exceeds 2, and none otherwise (so a
length-3 query retyped to length 2 within the window yields no call at
all). -/
theorem C3_debounced_single_call (trace : List (Nat × String))
    (hr : rapidB trace = true) (hne : trace ≠ []) :
    networkCalls trace =
      if 2 < (jsTrim (lastQuery trace)).length then [lastQuery trace] else [] := by
  induction trace with
  | nil => cases hne rfl
  | cons head tail ih =>
    cases tail with
    | nil =>
      obtain ⟨t, q⟩ := head
      simp only [networkCalls, firedQueries, lastQuery, List.filter]
      split_ifs with h
      · simp [h]
      · simp [h]
    | cons head₂ tail₂ =>
      obtain ⟨t₁, q₁⟩ := head
      obtain ⟨t₂, q₂⟩ := head₂
      simp only [rapidB, Bool.and_eq_true, decide_eq_true_eq] at hr
      obtain ⟨hlt, hr₂⟩ := hr
      have hfq : firedQueries ((t₁, q₁) :: (t₂, q₂) :: tail₂) =
          firedQueries ((t₂, q₂) :: tail₂) := by
        have : ¬ t₁ + 500 ≤ t₂ := by omega
        simp [firedQueries, this]
      have hlq : lastQuery ((t₁, q₁) :: (t₂, q₂) :: tail₂) =
          lastQuery ((t₂, q₂) :: tail₂) := rfl
      rw [networkCalls, hfq, hlq]
      exact ih hr₂ (List.cons_ne_nil _ _)

/-- C3 (witness): typing "bat" then "ba" within the window issues no call,
and rapidly typing up to "batman" then waiting issues exactly one call
carrying "batman". -/
theorem C3_debounced_single_call_witness :
    networkCalls [(0, "bat"), (400, "ba")] = [] ∧
    networkCalls [(0, "bat"), (400, "batm"), (800, "batman")] = ["batman"] := by
  constructor
  · exact (C3_debounced_single_call [(0, "bat"), (400, "ba")] (by decide)
      (by decide)).trans (by decide)
  · exact (C3_debounced_single_call [(0, "bat"), (400, "batm"), (800, "batman")]
      (by decide) (by decide)).trans (by decide)

/-- C3 (counterexample): the trace that types "bat" at t=0 and "batman" at
t=600 ends with quiescence, yet issues two network calls, the first carrying
the superseded value "bat" — not exactly one call with the final value. -/
theorem C3_superseded_call_counterexample :
    networkCalls [(0, "bat"), (600, "batman")] = ["bat", "batman"] ∧
    ("bat" : String) ≠ "batman" := by
  decide

/-! ## Claim C5 — startup fetch is all-or-nothing -/

/-- `Promise.all` rejects when any input rejects. -/
lemma promiseAll_isErr {α : Type} (results : List (Except String α))
    (h : results.any isErr = true) : ∃ e, promiseAll results = .error e := by
  induction results with
  | nil => simp at h
  | cons x xs ih =>
    cases x with
    | error e => exact ⟨e, rfl⟩
    | ok a =>
      simp only [List.any_cons, isErr, Bool.false_or] at h
      obtain ⟨e, he⟩ := ih h
      exact ⟨e, by simp [promiseAll, he]⟩

/-- C5: when any of the startup category fetch outcomes is a rejection, the
completed `fetchData` leaves the app rendering the error panel (with its
retry button) — not the content, so no category that did resolve is
shown. -/
theorem C5_startup_all_or_nothing (results : List (Except String (List Nat)))
    (h : results.any isErr = true) :
    renderApp (fetchData results initialAppState) =
      Screen.errorPanel fetchErrorMessage true := by
  obtain ⟨e, he⟩ := promiseAll_isErr results h
  simp [fetchData, he, renderApp, initialAppState]

/-- C5 (witness): seven resolved categories and one rejected fetch render
the error panel. -/
theorem C5_startup_all_or_nothing_witness :
    renderApp (fetchData
      [Except.ok [1], Except.ok [2], Except.ok [3], Except.error "HTTP 500",
       Except.ok [4], Except.ok [5], Except.ok [6], Except.ok [7]]
      initialAppState) = Screen.errorPanel fetchErrorMessage true :=
  C5_startup_all_or_nothing _ (by decide)

/-! ## Claim C6 — embed-URL construction

The URL shapes and the fallback warning behave as claimed, but the claim's
preference order for the external identifier is wrong: `getEmbedUrl` reads
`movie.external_ids?.imdb_id || movie.imdb_id`, preferring the identifier
nested under `external_ids` over the explicitly supplied `imdb_id`, while
the claim prefers the explicit field. -/

/-- An optional string with the empty string demoted to `none` (JS
truthiness normalised into the option). -/
def nonEmptyOpt : Option String → Option String
  | none => none
  | some s => if s.isEmpty then none else some s

/-- The external-identifier resolution as the amended claim words it: the
identifier nested under `external_ids` when present and non-empty, else the
explicit `imdb_id` when present and non-empty. -/
def resolveImdbId (m : Item) : Option String :=
  (nonEmptyOpt (externalImdbId m)).orElse (fun _ => nonEmptyOpt m.imdb_id)

/-- The embed-URL contract written from the (amended) claim's words: for a
series with a resolvable external identifier, the imdb tv-embed form with
season and episode; for a series without one, the tmdb tv-embed fallback
with season and episode plus a non-fatal warning; for a movie, the
movie-embed form with only the catalog identifier. -/
def specEmbedUrl (isTV : Bool) (season episode : Nat) (m : Item) :
    String × Bool :=
  if isTV then
    match resolveImdbId m with
    | some ext =>
      ("https://vidsrc.in/embed/tv?imdb=" ++ ext ++ "&season=" ++
        toString season ++ "&episode=" ++ toString episode, false)
    | none =>
      ("https://vidsrc.in/embed/tv?tmdb=" ++ toString (m.id.getD 0) ++
        "&season=" ++ toString season ++ "&episode=" ++ toString episode, true)
  else
    ("https://vidsrc.in/embed/movie/" ++ toString (m.id.getD 0), false)

/-- The claim-side resolver agrees with the JS `||` chain plus the fire-time
truthiness test. -/
lemma nonEmpty_or (a b : Option String) :
    (nonEmptyOpt a).orElse (fun _ => nonEmptyOpt b) =
      if jsStrTruthy (jsOrStr a b) then some ((jsOrStr a b).getD "") else none := by
  rcases a with _ | s <;> rcases b with _ | t
  · simp [nonEmptyOpt, jsOrStr, jsStrTruthy, Option.orElse]
  · cases ht : t.isEmpty <;>
      simp [nonEmptyOpt, jsOrStr, jsStrTruthy, Option.orElse, ht]
  · cases hs : s.isEmpty <;>
      simp [nonEmptyOpt, jsOrStr, jsStrTruthy, Option.orElse, hs]
  · cases hs : s.isEmpty <;> cases ht : t.isEmpty <;>
      simp [nonEmptyOpt, jsOrStr, jsStrTruthy, Option.orElse, hs, ht]

/-- C6 (amended): for every item with a truthy identifier, `getEmbedUrl`
produces exactly the URL and warning flag of the claim's contract with the
preference order corrected to nested-then-explicit. -/
theorem C6_embed_url (isTV : Bool) (season episode : Nat) (m : Item)
    (hid : jsNatTruthy m.id = true) :
    getEmbedUrl isTV season episode m = specEmbedUrl isTV season episode m := by
  unfold getEmbedUrl specEmbedUrl
  simp only [hid, Bool.not_true, Bool.false_eq_true, if_false]
  by_cases htv : isTV
  · simp only [htv, if_true]
    have hr : resolveImdbId m =
        if jsStrTruthy (jsOrStr (externalImdbId m) m.imdb_id) then
          some ((jsOrStr (externalImdbId m) m.imdb_id).getD "")
        else none := nonEmpty_or _ _
    rw [hr]
    split_ifs with h
    · rfl
    · rfl
  · simp [htv]

/-- C6 (witness): a series item with no external identifier at all gets the
tmdb fallback URL with its season and episode, flagged with the non-fatal
warning. -/
theorem C6_embed_url_witness :
    getEmbedUrl true 2 3
      ⟨some 42, none, some "Show", some "tv", none, none, none, none, none⟩ =
    specEmbedUrl true 2 3
      ⟨some 42, none, some "Show", some "tv", none, none, none, none, none⟩ :=
  C6_embed_url true 2 3 _ (by decide)

/-- C6 (counterexample): a series item carrying an explicit `imdb_id`
(tt0000001) and a different nested `external_ids.imdb_id` (tt0000002) is
embedded via the nested identifier, not the explicit one the claim
prefers. -/
theorem C6_nested_id_counterexample :
    (getEmbedUrl true 1 1
      ⟨some 42, none, none, none, none, none, none, some "tt0000001",
        some ⟨some "tt0000002"⟩⟩).1 =
      "https://vidsrc.in/embed/tv?imdb=tt0000002&season=1&episode=1" ∧
    "https://vidsrc.in/embed/tv?imdb=tt0000002&season=1&episode=1" ≠
      "https://vidsrc.in/embed/tv?imdb=tt0000001&season=1&episode=1" := by
  decide

/-! ## Claim C7 — season and episode selectors -/

/-- Looking up a season in the map the `forEach` loop builds finds the last
list entry for that season number (season 0 excluded), with value
`episode_count || 10`; a season with no entry falls through to the
accumulator. -/
lemma buildEpisodesPerSeason_foldl (l : List SeasonEntry)
    (acc : Nat → Option Nat) (k : Nat) :
    (l.foldl
      (fun acc s =>
        if 0 < s.season_number then
          fun j =>
            if j = s.season_number then some (jsOrNatD s.episode_count 10)
            else acc j
        else acc)
      acc) k =
      match l.reverse.find?
          (fun s => s.season_number == k && decide (0 < s.season_number)) with
      | some s => some (jsOrNatD s.episode_count 10)
      | none => acc k := by
  induction l generalizing acc with
  | nil => rfl
  | cons s rest ih =>
    rw [List.foldl_cons, ih]
    rw [List.reverse_cons, List.find?_append]
    cases hr : rest.reverse.find?
        (fun s => s.season_number == k && decide (0 < s.season_number)) with
    | some s₂ => rfl
    | none =>
      simp only [Option.none_or, List.find?]
      by_cases hpos : 0 < s.season_number
      · by_cases hk : k = s.season_number
        · have hb : (s.season_number == k) = true := by
            simp [hk]
          simp [hpos, hb, hk]
        · have hb : (s.season_number == k) = false := by
            simp only [beq_eq_false_iff_ne]
            omega
          simp [hpos, hb, hk]
      · have hb : decide (0 < s.season_number) = false := by
          simp [hpos]
        simp [hpos, hb]

/-- A value defaulted through `|| 10` is never zero. -/
lemma jsOrNatD_ten_ne_zero (x : Option Nat) : jsOrNatD x 10 ≠ 0 := by
  cases x with
  | none => simp [jsOrNatD]
  | some n => simp only [jsOrNatD]; split_ifs <;> omega

/-- Re-defaulting a stored `episode_count || 10` value at render time
changes nothing. -/
lemma jsOrNatD_some_ten (x : Option Nat) :
    jsOrNatD (some (jsOrNatD x 10)) 10 = jsOrNatD x 10 := by
  have h := jsOrNatD_ten_ne_zero x
  show (if jsOrNatD x 10 = 0 then 10 else jsOrNatD x 10) = jsOrNatD x 10
  exact if_neg h

/-- C7: for a series item, the season selector offers `1..totalSeasons`
(a single season when the count is unknown or zero), selecting season `k`
resets the selected episode to 1, and the episode selector then offers
`1..c` where `c` is the episode count of the last `seasons` entry for
season `k` with season 0 excluded (`episode_count || 10`), or the default
10 when no entry matches. -/
theorem C7_season_episode_selectors (m : Item) (k : Nat)
    (h : isTVShow m = true) :
    seasonOptions (loadMovie m initialModalState) =
      List.range' 1
        (if jsNatTruthy m.number_of_seasons then m.number_of_seasons.getD 0
         else 1) ∧
    (changeSeason k (loadMovie m initialModalState)).selectedSeason = k ∧
    (changeSeason k (loadMovie m initialModalState)).selectedEpisode = 1 ∧
    episodeOptions (changeSeason k (loadMovie m initialModalState)) =
      List.range' 1
        (match ((if jsNatTruthy m.number_of_seasons then m.seasons.getD []
                 else []).reverse.find?
            (fun s => s.season_number == k && decide (0 < s.season_number))) with
         | some s => jsOrNatD s.episode_count 10
         | none => 10) := by
  by_cases ht : jsNatTruthy m.number_of_seasons = true
  · have hload : loadMovie m initialModalState =
        { showPlayer := false, isTV := true, selectedSeason := 1,
          selectedEpisode := 1, totalSeasons := m.number_of_seasons.getD 0,
          episodesPerSeason :=
            buildEpisodesPerSeason (m.seasons.getD []) } := by
      simp [loadMovie, initialModalState, h, ht]
    rw [hload]
    refine ⟨by simp [seasonOptions, ht], rfl, rfl, ?_⟩
    simp only [episodeOptions, changeSeason, ht, if_true]
    rw [buildEpisodesPerSeason, buildEpisodesPerSeason_foldl]
    cases hr : (m.seasons.getD []).reverse.find?
        (fun s => s.season_number == k && decide (0 < s.season_number)) with
    | some s => simp [jsOrNatD_some_ten]
    | none => rfl
  · have ht' : jsNatTruthy m.number_of_seasons = false := by
      simpa using ht
    have hload : loadMovie m initialModalState =
        { showPlayer := false, isTV := true, selectedSeason := 1,
          selectedEpisode := 1, totalSeasons := 1,
          episodesPerSeason := fun _ => none } := by
      simp [loadMovie, initialModalState, h, ht']
    rw [hload]
    refine ⟨by simp [seasonOptions, ht'], rfl, rfl, ?_⟩
    simp [episodeOptions, changeSeason, ht', jsOrNatD]

/-- The worked example of the claim: `number_of_seasons: 3` with seasons 1
and 2 carrying episode counts 8 and 10. -/
def exampleSeries : Item :=
  ⟨some 99, none, some "Show", none, none, some 3,
    some [⟨1, some 8⟩, ⟨2, some 10⟩], none, none⟩

/-- C7 (witness): the worked example yields season options 1..3, episode
options of sizes 8, 10 and (by default) 10 for seasons 1, 2 and 3, and
changing season resets the episode to 1. -/
theorem C7_season_episode_selectors_witness :
    seasonOptions (loadMovie exampleSeries initialModalState) = [1, 2, 3] ∧
    episodeOptions (changeSeason 1 (loadMovie exampleSeries initialModalState)) =
      List.range' 1 8 ∧
    episodeOptions (changeSeason 2 (loadMovie exampleSeries initialModalState)) =
      List.range' 1 10 ∧
    episodeOptions (changeSeason 3 (loadMovie exampleSeries initialModalState)) =
      List.range' 1 10 ∧
    (changeSeason 2 (loadMovie exampleSeries initialModalState)).selectedEpisode
      = 1 := by
  refine ⟨?_, ?_, ?_, ?_, ?_⟩
  · exact (C7_season_episode_selectors exampleSeries 1 (by decide)).1.trans
      (by decide)
  · exact (C7_season_episode_selectors exampleSeries 1 (by decide)).2.2.2.trans
      (by decide)
  · exact (C7_season_episode_selectors exampleSeries 2 (by decide)).2.2.2.trans
      (by decide)
  · exact (C7_season_episode_selectors exampleSeries 3 (by decide)).2.2.2.trans
      (by decide)
  · exact (C7_season_episode_selectors exampleSeries 2 (by decide)).2.2.1

/-! ## Claim C8 — series classification

Three of the four disjuncts match the code, but the fourth does not: the
modal classifies on `movie.name !== undefined` alone, with no requirement
that the movie-only `title` field be absent, while the claim adds that
requirement. -/

/-- The classification exactly as the claim words it: series iff season
count present, first-air date present, kind marker `tv`, or the series-only
title field (`name`) present while the movie-only title field (`title`) is
absent. -/
def specIsSeries (m : Item) : Bool :=
  m.number_of_seasons.isSome || m.first_air_date.isSome ||
    (m.media_type == some "tv") || (m.name.isSome && !m.title.isSome)

/-- C8 (counterexample): an object carrying both a `title` and a `name` (and
no season count, first-air date or kind marker) is classified as a series by
the code, but as a movie by the claim's wording. -/
theorem C8_classification_counterexample :
    isTVShow ⟨some 1, some "A", some "B", none, none, none, none, none,
      none⟩ = true ∧
    specIsSeries ⟨some 1, some "A", some "B", none, none, none, none, none,
      none⟩ = false := by
  decide

/-- C8 (amended): the modal classifies an object as a series exactly when a
season count is present, a first-air date is present, the kind marker equals
`tv`, or the `name` field is present — with no condition on the `title`
field. -/
theorem C8_classification (m : Item) :
    isTVShow m = true ↔
      (m.number_of_seasons.isSome = true ∨ m.first_air_date.isSome = true ∨
        m.media_type = some "tv" ∨ m.name.isSome = true) := by
  simp [isTVShow, Bool.or_eq_true, or_assoc]

/-- C8 (witness): an object whose only series signal is a present season
count is classified as a series. -/
theorem C8_classification_witness :
    isTVShow ⟨some 5, none, none, none, none, some 2, none, none, none⟩
      = true :=
  (C8_classification
    ⟨some 5, none, none, none, none, some 2, none, none, none⟩).mpr
    (Or.inl rfl)

/-! ## Claim C9 — failed item-click hydration

The navigation-bar path behaves as claimed: a rejected detail fetch is
caught and logged and the overlay state is untouched.  The catalog path in
`App.handleMovieClick`, however, runs `setSelectedMovie(null)` before the
fetch, so after a failed click the selection is always `null` — which equals
the prior state only when nothing was selected before the click. -/

/-- C9 (counterexample): a failed catalog item-click from a state with item
5 selected leaves the selection cleared, not equal to its prior value. -/
theorem C9_failed_click_counterexample :
    appHandleMovieClick (Except.error "network error") (some 5) = none ∧
    some 5 ≠ (none : Option Nat) := by
  decide

/-- C9 (amended): a rejected detail fetch is caught in both handlers; the
search-result click path leaves the navigation-bar state exactly as it was,
and the catalog click path leaves the selection cleared (`null`, set at
click entry), which is the prior state whenever no item was selected when
the click happened. -/
theorem C9_failed_hydration (mediaType : String) (e : String)
    (s : NavbarState) (prev : Option Nat) :
    navbarHandleMovieClick mediaType (Except.error e) s = s ∧
    appHandleMovieClick (Except.error e) prev = none := by
  exact ⟨rfl, rfl⟩

/-! ## Claim C10 — rows render only items with posters -/

/-- C10: a category row renders nothing at all (no heading either) exactly
when no input item passes the poster filter (in particular for the empty
list); otherwise, once visible, it renders the heading and exactly the
poster-bearing items in order. -/
theorem C10_row_poster_filter (title : String) (movies : List RowMovie)
    (vis : Bool) :
    (renderMovieRow title movies vis = RowRender.nothing ↔
      movies.filter hasPoster = []) ∧
    (movies.filter hasPoster ≠ [] →
      renderMovieRow title movies true =
        RowRender.row title ((movies.filter hasPoster).map RowMovie.id)) := by
  constructor
  · unfold renderMovieRow validMovies
    constructor
    · intro h
      by_cases he : movies.isEmpty
      · rw [List.isEmpty_iff] at he
        simp [he]
      · rw [if_neg he] at h
        by_cases hv : (movies.filter hasPoster).isEmpty
        · rwa [← List.isEmpty_iff]
        · rw [if_neg hv] at h
          exact absurd h (by simp)
    · intro h
      have he : (movies.filter hasPoster).isEmpty = true := by
        simp [h]
      by_cases hm : movies.isEmpty
      · simp [hm]
      · simp [hm, he]
  · intro h
    unfold renderMovieRow validMovies
    have hm : ¬ movies.isEmpty = true := by
      intro hc
      rw [List.isEmpty_iff] at hc
      subst hc
      simp at h
    have hv : ¬ (movies.filter hasPoster).isEmpty = true := by
      simpa [List.isEmpty_iff] using h
    rw [if_neg hm, if_neg hv]
    simp

/-- C10 (witness): of three items, the two with posters render (in order)
and the posterless one is omitted; a row whose only item lacks a poster
renders nothing. -/
theorem C10_row_poster_filter_witness :
    renderMovieRow "Popular Right Now"
      [⟨1, some "A", none, none, some "/a.jpg"⟩,
       ⟨2, some "B", none, none, none⟩,
       ⟨3, some "C", none, none, some "/c.jpg"⟩] true =
      RowRender.row "Popular Right Now" [1, 3] ∧
    renderMovieRow "Coming Soon"
      [⟨4, some "D", none, none, none⟩] true = RowRender.nothing := by
  constructor
  · exact ((C10_row_poster_filter "Popular Right Now"
      [⟨1, some "A", none, none, some "/a.jpg"⟩,
       ⟨2, some "B", none, none, none⟩,
       ⟨3, some "C", none, none, some "/c.jpg"⟩] true).2 (by decide)).trans
      (by decide)
  · exact (C10_row_poster_filter "Coming Soon"
      [⟨4, some "D", none, none, none⟩] true).1.mpr (by decide)

end StreamNova
